import Mathlib

/-
Verification of the Discord support-ticket tracker
(discord_support_bot.py and migrate_history.py).

The Python source is shallowly embedded below: Python strings are modelled
as Lean `String` (or `List Char` where substring search matters), Python
dicts keyed by thread id as association lists, the `responded_threads` set
as a `List Nat` with insert-if-absent, and the cancel/fire race of the SLA
scheduler as an explicit interleaving semantics (`sysStep` folded over a
trace of atomic labels).
-/

set_option maxHeartbeats 1000000

namespace DiscordSupport

/-! ### Generic helpers used by several embedded functions -/

/-- Python `sep.join(parts)`. -/
def joinSep (sep : String) : List String → String
  | [] => ""
  | [p] => p
  | p :: q :: rest => p ++ sep ++ joinSep sep (q :: rest)

/-- Python `str.lower()` (the tag names involved are basic latin). -/
def pyLower (s : String) : String :=
  ⟨s.data.map Char.toLower⟩

/-- Python substring test `needle in hay` on strings, as character lists. -/
def listIsSub (needle : List Char) : List Char → Bool
  | [] => needle.isEmpty
  | c :: t => needle.isPrefixOf (c :: t) || listIsSub needle t

/-! ### format_duration (discord_support_bot.py lines 161-186) -/

def dDays (s : Nat) : Nat := s / 86400

def dHours (s : Nat) : Nat := s % 86400 / 3600

def dMinutes (s : Nat) : Nat := s % 3600 / 60

def dSecs (s : Nat) : Nat := s % 60

/-- The `parts` list after the three `append` statements for d/h/m. -/
def duration_parts (s : Nat) : List String :=
  (if 0 < dDays s then [Nat.repr (dDays s) ++ "d"] else []) ++
  (if 0 < dHours s ∨ 0 < dDays s then [Nat.repr (dHours s) ++ "h"] else []) ++
  (if 0 < dMinutes s ∨ 0 < dHours s ∨ 0 < dDays s then [Nat.repr (dMinutes s) ++ "m"] else [])

/-- The `parts` list after the final conditional `append` of the seconds field:
`if not parts or (days == 0 and hours == 0): parts.append(f"{secs}s")`. -/
def duration_parts_full (s : Nat) : List String :=
  if duration_parts s = [] ∨ (dDays s = 0 ∧ dHours s = 0)
  then duration_parts s ++ [Nat.repr (dSecs s) ++ "s"]
  else duration_parts s

/-- `format_duration(seconds)`: negative input yields "0s", otherwise the
d/h/m/s decomposition joined with single spaces. -/
def format_duration (seconds : Int) : String :=
  if seconds < 0 then "0s"
  else joinSep " " (duration_parts_full seconds.toNat)

/-! ### is_business_hours (discord_support_bot.py lines 143-158) -/

/-- A wall-clock instant after conversion to the reference timezone,
as produced by `datetime.now(IST)`: Python weekday (0 = Monday .. 6 = Sunday),
hour and minute. -/
structure LocalTime where
  weekday : Nat
  hour : Nat
  minute : Nat
deriving DecidableEq

def BUSINESS_HOURS_START : Nat := 9

def BUSINESS_HOURS_END : Nat := 18

def BUSINESS_DAYS : List Nat := [0, 1, 2, 3, 4]

/-- IST = UTC+5:30, i.e. 19800 seconds (the code's pytz zone and its
explicit `timedelta(hours=5, minutes=30)` fallback agree on this). -/
def IST_UTC_OFFSET_SECONDS : Nat := 19800

/-- Convert an instant (seconds since the Unix epoch, UTC) to IST local
time.  Jan 1 1970 was a Thursday, whose Python weekday is 3. -/
def localOfUtc (t : Nat) : LocalTime :=
  { weekday := ((t + IST_UTC_OFFSET_SECONDS) / 86400 + 3) % 7
    hour := (t + IST_UTC_OFFSET_SECONDS) % 86400 / 3600
    minute := (t + IST_UTC_OFFSET_SECONDS) % 3600 / 60 }

/-- `is_business_hours()`: `none` models the `except` path (any internal
conversion error), on which the function returns `False`. -/
def is_business_hours : Option LocalTime → Bool
  | none => false
  | some now_ist =>
    BUSINESS_DAYS.contains now_ist.weekday &&
    (decide (BUSINESS_HOURS_START ≤ now_ist.hour) && decide (now_ist.hour < BUSINESS_HOURS_END))

/-! ### send_to_webhook (discord_support_bot.py lines 230-256) -/

/-- Outcome of a single HTTP POST attempt: an HTTP status, or one of the
three caught exception classes. -/
inductive AttemptOutcome where
  | status (code : Nat)
  | timeoutErr
  | clientErr
  | otherErr
deriving DecidableEq

/-- An attempt succeeds exactly when `response.status == 200`. -/
def attempt_ok : AttemptOutcome → Bool
  | .status code => code == 200
  | _ => false

/-- Observable behaviour of one `send_to_webhook` invocation: how many
attempts were made, the returned boolean, and the backoff sleeps
performed between attempts (in seconds, in order). -/
structure DeliveryTrace where
  attempts : Nat
  success : Bool
  delays : List Nat
deriving DecidableEq

def MAX_RETRIES : Nat := 3

/-- The `for attempt in range(max_retries)` loop: on a 200 return True
immediately; otherwise sleep `2 ** attempt` unless this was the last
iteration (`attempt < max_retries - 1`); after the loop return False. -/
def send_loop : List AttemptOutcome → Nat → DeliveryTrace
  | [], _ => { attempts := 0, success := false, delays := [] }
  | o :: rest, attempt =>
    if attempt_ok o then { attempts := 1, success := true, delays := [] }
    else if rest = [] then { attempts := 1, success := false, delays := [] }
    else
      let r := send_loop rest (attempt + 1)
      { attempts := r.attempts + 1, success := r.success, delays := 2 ^ attempt :: r.delays }

/-- `send_to_webhook(data, max_retries=3)` run against a stream of attempt
outcomes (one per performed attempt). -/
def send_to_webhook (outcomes : List AttemptOutcome) : DeliveryTrace :=
  send_loop (outcomes.take MAX_RETRIES) 0

/-! ### Tag helpers and resolution (discord_support_bot.py lines 189-211) -/

def RESOLVED_TAGS : List String := ["resolved"]

/-- `get_tags_string(tags)`: empty/None yields "", otherwise the tag names
joined with ", ".  A tag is modelled by its name string. -/
def get_tags_string (tags : List String) : String :=
  if tags = [] then "" else joinSep ", " tags

/-- `is_thread_resolved(tags)`: any tag whose lowercased name is in
RESOLVED_TAGS. -/
def is_thread_resolved (tags : List String) : Bool :=
  if tags = [] then false
  else tags.any (fun t => RESOLVED_TAGS.contains (pyLower t))

/-! ### Engineering classification (discord_support_bot.py lines 98-103,
214-222; migrate_history.py lines 184-194) -/

def CONSULTING_USER_IDS : List String :=
  ["365127154847186945", "535859343665397791", "441276013578813441", "1394202624999559230"]

/-- `is_engineering_issue(message_content)`: empty content defaults to
True; otherwise True iff no consulting user id occurs as a substring. -/
def is_engineering_issue (message_content : List Char) : Bool :=
  if message_content = [] then true
  else !(CONSULTING_USER_IDS.any (fun uid => listIsSub uid.data message_content))

/-- The id list hard-coded in the migration script (only two entries). -/
def engineering_user_ids : List String := ["365127154847186945", "535859343665397791"]

/-- The classification computed inside `process_thread_messages`:
`found_mentions = [u for u in engineering_user_ids if u in first_message_content]`,
`is_engineering = len(found_mentions) == 0`. -/
def migrate_is_engineering (first_message_content : List Char) : Bool :=
  (engineering_user_ids.filter (fun uid => listIsSub uid.data first_message_content)).length == 0

/-! ### Startup configuration (discord_support_bot.py lines 29-84) -/

/-- Python `str.isspace` characters relevant to `str.strip()`. -/
def pyIsSpace (c : Char) : Bool :=
  c == ' ' || c == '\t' || c == '\n' || c == '\r' || c == '\x0b' || c == '\x0c'

/-- Python `str.strip()`. -/
def pyStrip (cs : List Char) : List Char :=
  ((cs.dropWhile pyIsSpace).reverse.dropWhile pyIsSpace).reverse

/-- Python `str.split(",")`. -/
def splitComma : List Char → List (List Char)
  | [] => [[]]
  | c :: rest =>
    if c = ',' then [] :: splitComma rest
    else
      match splitComma rest with
      | [] => [[c]]
      | g :: gs => (c :: g) :: gs

/-- Value of a non-empty all-digit character list, else `none`. -/
def decDigitsVal (cs : List Char) : Option Nat :=
  if cs ≠ [] ∧ cs.all Char.isDigit then
    some (cs.foldl (fun acc c => acc * 10 + (c.toNat - Char.toNat '0')) 0)
  else none

/-- Python `int(s)` on a string: optional surrounding whitespace, optional
sign, decimal digits; ValueError modelled as `none`. -/
def pyToInt (cs : List Char) : Option Int :=
  match pyStrip cs with
  | '-' :: rest => (decDigitsVal rest).map (fun n => -(n : Int))
  | '+' :: rest => (decDigitsVal rest).map (fun n => (n : Int))
  | rest => (decDigitsVal rest).map (fun n => (n : Int))

/-- `get_env_var(name, required=True)`: the raw value ("" when the
variable is unset, as with `os.getenv(name, "")`); empty raises, embedded
as `none`. -/
def get_env_var (value : String) : Option String :=
  if value.data = [] then none else some value

/-- `parse_int_env(name, default=0)`: empty or unparsable values silently
fall back to the default. -/
def parse_int_env (value : String) (default : Int) : Int :=
  if value.data = [] then default
  else (pyToInt value.data).getD default

/-- `parse_int_list_env(name)`: split on commas, strip items, skip empty
items and items that fail `int()` (logged as a warning, not an error). -/
def parse_int_list_env (value : String) : List Int :=
  if value.data = [] then []
  else ((splitComma value.data).map pyStrip).filterMap
    (fun item => if item = [] then none else pyToInt item)

/-- The four environment values read by the configuration block. -/
structure Env where
  discord_token : String
  support_channel_id : String
  webhook_url : String
  alert_channel_ids : String
deriving DecidableEq

inductive StartupResult where
  | exited (code : Nat)
  | running (token : String) (support_channel_id : Int)
      (webhook_url : String) (alert_channel_ids : List Int)
deriving DecidableEq

/-- The module-level configuration block: the `try` block reading the four
variables (a ValueError exits with code 1), then the `SUPPORT_CHANNEL_ID == 0`
check, then the `WEBHOOK_URL.startswith("http")` check. -/
def startup (env : Env) : StartupResult :=
  match get_env_var env.discord_token with
  | none => .exited 1
  | some tok =>
    let scid := parse_int_env env.support_channel_id 0
    match get_env_var env.webhook_url with
    | none => .exited 1
    | some url =>
      let alerts := parse_int_list_env env.alert_channel_ids
      if scid = 0 then .exited 1
      else if "http".data.isPrefixOf url.data then .running tok scid url alerts
      else .exited 1

/-! ### SLA scheduler state (discord_support_bot.py lines 117-121, 259-345) -/

/-- The payload captured at schedule time for a pending alert. -/
structure AlertPayload where
  title : String
  raised_by : String
  is_engineering : Bool
  guild_id : Nat
deriving DecidableEq

/-- The two module-level mutable structures: the `responded_threads` set
and the `pending_sla_alerts` dict (keyed by thread id). -/
structure BotState where
  responded_threads : List Nat
  pending_sla_alerts : List (Nat × AlertPayload)
deriving DecidableEq

/-- Removal of the entry for `tid` from the pending dict
(`del pending_sla_alerts[thread_id]` / `pending_sla_alerts.pop(thread_id, None)`). -/
def cancel_pending (pending : List (Nat × AlertPayload)) (tid : Nat) : List (Nat × AlertPayload) :=
  pending.filter (fun e => !(e.1 == tid))

/-- `cancel_sla_alert(thread_id)`: only acts when the key is present
(`if thread_id in pending_sla_alerts`), otherwise a no-op. -/
def cancel_sla_alert (st : BotState) (tid : Nat) : BotState :=
  if st.pending_sla_alerts.any (fun e => e.1 == tid) then
    { st with pending_sla_alerts := cancel_pending st.pending_sla_alerts tid }
  else st

/-- `schedule_sla_alert(...)`: first `cancel_sla_alert(thread_id)`, then
store the new task under the key (`pending_sla_alerts[thread_id] = task`). -/
def schedule_sla_alert (st : BotState) (tid : Nat) (p : AlertPayload) : BotState :=
  let st1 := cancel_sla_alert st tid
  { st1 with pending_sla_alerts := (tid, p) :: st1.pending_sla_alerts }

/-- Dict lookup `pending_sla_alerts.get(thread_id)`. -/
def lookupAlert (st : BotState) (tid : Nat) : Option AlertPayload :=
  (st.pending_sla_alerts.find? (fun e => e.1 == tid)).map Prod.snd

/-- Python `set.add`. -/
def addToSet (s : List Nat) (x : Nat) : List Nat :=
  if x ∈ s then s else x :: s

/-! ### on_message (discord_support_bot.py lines 470-537) -/

inductive EventKind where
  | thread_created
  | first_response
  | title_changed
  | tags_changed
  | resolved
  | reopened
deriving DecidableEq

/-- Result of the `channel.history(limit=1, oldest_first=True)` fetch in
`on_message`: an exception (handler returns), or the starter author id of
the oldest message if one exists. -/
inductive HistoryFetch where
  | failed
  | fetched (starter : Option Nat)
deriving DecidableEq

/-- The inputs `on_message` inspects: author bot-flag and id, the
channel's parent id (`none` when the attribute is missing), the channel
id, and the history fetch result. -/
structure MessageEvent where
  author_bot : Bool
  author_id : Nat
  channel_parent_id : Option Nat
  channel_id : Nat
  history_first_author : HistoryFetch
deriving DecidableEq

/-- `if thread_starter_id and message.author.id == thread_starter_id`. -/
def is_from_thread_starter (starter : Option Nat) (author_id : Nat) : Bool :=
  match starter with
  | some sid => !(sid == 0) && (author_id == sid)
  | none => false

/-- `on_message`: skip bot authors, skip non-support channels, fast path
when already responded, determine the thread starter, then record the
first response (add to the responded set, cancel the SLA alert, emit a
`first_response` webhook event). -/
def on_message (support_channel_id : Nat) (st : BotState) (m : MessageEvent) :
    BotState × List EventKind :=
  if m.author_bot then (st, [])
  else if ¬ (m.channel_parent_id = some support_channel_id) then (st, [])
  else if m.channel_id ∈ st.responded_threads then (st, [])
  else
    match m.history_first_author with
    | .failed => (st, [])
    | .fetched starter =>
      if is_from_thread_starter starter m.author_id then (st, [])
      else
        let st1 : BotState :=
          { st with responded_threads := addToSet st.responded_threads m.channel_id }
        let st2 := cancel_sla_alert st1 m.channel_id
        (st2, [EventKind.first_response])

/-! ### on_thread_update (discord_support_bot.py lines 540-659) -/

/-- A thread snapshot as seen by `on_thread_update`: parent channel id
(`none` when absent), thread id, name, applied tag names. -/
structure ThreadSnapshot where
  parent_id : Option Nat
  id : Nat
  name : String
  applied_tags : List String
deriving DecidableEq

/-- The webhook events emitted by one `on_thread_update` call, in order:
`title_changed` when the name differs, `tags_changed` when the rendered
tag string differs, then `resolved` on a False→True transition of
`is_thread_resolved` or `reopened` on a True→False transition.
The guard `if not after.parent_id or after.parent_id != SUPPORT_CHANNEL_ID`
treats a missing or zero parent id as not a support thread. -/
def on_thread_update (support_channel_id : Nat) (before after : ThreadSnapshot) :
    List EventKind :=
  match after.parent_id with
  | none => []
  | some pid =>
    if pid = 0 ∨ pid ≠ support_channel_id then []
    else
      (if before.name ≠ after.name then [EventKind.title_changed] else []) ++
      (if get_tags_string before.applied_tags ≠ get_tags_string after.applied_tags
        then [EventKind.tags_changed] else []) ++
      (if is_thread_resolved after.applied_tags && !(is_thread_resolved before.applied_tags)
        then [EventKind.resolved]
      else if is_thread_resolved before.applied_tags && !(is_thread_resolved after.applied_tags)
        then [EventKind.reopened]
      else [])

/-! ### Cancel/fire interleavings of the SLA timer (discord_support_bot.py
lines 259-345, 509-511) -/

/-- Scheduler state for the race analysis: the responded set, the pending
dict, and the set of tickets for which an SLA alert dispatch has been
performed. -/
structure SysState where
  responded : List Nat
  pending : List (Nat × AlertPayload)
  dispatched : List Nat
deriving DecidableEq

/-- The dispatch decision inside `send_sla_alert`: it re-checks
`if thread_id in responded_threads: return` before sending to the alert
channels. -/
def send_sla_alert_step (tid : Nat) (st : SysState) : SysState :=
  if tid ∈ st.responded then st
  else { st with dispatched := tid :: st.dispatched }

/-- The body of `alert_task` once the sleep has elapsed: the outer check
`if thread_id not in responded_threads`, the call to `send_sla_alert`
(which re-checks), and the `finally` cleanup `pending_sla_alerts.pop`. -/
def alert_task_fire (tid : Nat) (st : SysState) : SysState :=
  let st1 := if tid ∈ st.responded then st else send_sla_alert_step tid st
  { st1 with pending := cancel_pending st1.pending tid }

/-- Atomic steps that may interleave on one ticket: the response handler
marking the ticket responded (`responded_threads.add`), the response
handler's `cancel_sla_alert`, and the timer task firing. -/
inductive ProcLabel where
  | markResponded
  | cancelAlert
  | timerFire
deriving DecidableEq

def sysStep (tid : Nat) (st : SysState) : ProcLabel → SysState
  | .markResponded =>
    if tid ∈ st.responded then st else { st with responded := tid :: st.responded }
  | .cancelAlert =>
    if st.pending.any (fun e => e.1 == tid) then
      { st with pending := cancel_pending st.pending tid }
    else st
  | .timerFire => alert_task_fire tid st

/-! ## Helper lemmas -/

theorem digitChar_ne_s (m : Nat) (h : m < 16) : Nat.digitChar m ≠ 's' := by
  interval_cases m <;> decide

theorem toDigitsCore_ne_s : ∀ (fuel n : Nat) (ds : List Char), (∀ c ∈ ds, c ≠ 's') →
    ∀ c ∈ Nat.toDigitsCore 10 fuel n ds, c ≠ 's'
  | 0, n, ds, h => by simpa [Nat.toDigitsCore] using h
  | fuel+1, n, ds, h => by
    have h' : ∀ c ∈ Nat.digitChar (n % 10) :: ds, c ≠ 's' := by
      intro c hc
      rcases List.mem_cons.mp hc with rfl | hc
      · exact digitChar_ne_s _ (by omega)
      · exact h c hc
    by_cases hz : n / 10 = 0
    · simpa [Nat.toDigitsCore, hz] using h'
    · simpa [Nat.toDigitsCore, hz] using toDigitsCore_ne_s fuel (n / 10) _ h'

/-- The decimal rendering of a natural number never contains the letter s. -/
theorem repr_ne_s (n : Nat) : ∀ c ∈ (Nat.repr n).data, c ≠ 's' := by
  have h : (Nat.repr n).data = Nat.toDigitsCore 10 (n+1) n [] := rfl
  rw [h]
  exact toDigitsCore_ne_s (n+1) n [] (by simp)

/-- The letter s occurs in a space-joined list of parts iff it occurs in a part. -/
theorem mem_joinSep_space : ∀ (l : List String),
    's' ∈ (joinSep " " l).data ↔ ∃ p ∈ l, 's' ∈ p.data
  | [] => by simp [joinSep]
  | [p] => by simp [joinSep]
  | p :: q :: rest => by
    have ih := mem_joinSep_space (q :: rest)
    simp only [joinSep, String.data_append, List.mem_append, ih]
    constructor
    · rintro ((hp | hsp) | ⟨r, hr, hs⟩)
      · exact ⟨p, by simp, hp⟩
      · simp at hsp
      · exact ⟨r, by simp [hr], hs⟩
    · rintro ⟨r, hr, hs⟩
      rcases List.mem_cons.mp hr with rfl | hr
      · exact Or.inl (Or.inl hs)
      · exact Or.inr ⟨r, hr, hs⟩

theorem no_s_in_part (x : Nat) (u : String) (hu : 's' ∉ u.data) :
    's' ∉ (Nat.repr x ++ u).data := by
  rw [String.data_append]
  intro hmem
  rcases List.mem_append.mp hmem with hm | hm
  · exact repr_ne_s x 's' hm rfl
  · exact hu hm

/-! ## Claim C3: format_duration and the seconds unit -/

/-- C3 counterexample: the claim "format(d) contains the s unit iff d < 60"
fails at d = 90: the seconds field is appended whenever days and hours are
both zero, so format(90) = "1m 30s" carries both a minutes and a seconds
field even though 90 ≥ 60. -/
theorem claim_C3_cex :
    (0 : Int) ≤ 90 ∧ 's' ∈ (format_duration 90).data ∧ ¬ ((90 : Int) < 60) ∧
    format_duration 90 = "1m 30s" := by decide

/-- C3 (amended): for every duration d ≥ 0, format(d) produces a string
containing the s unit iff d < 3600 (the seconds field appears whenever no
days field and no hours field was emitted, so minutes and seconds appear
together for 60 ≤ d < 3600); and format(-1) = "0s". -/
theorem claim_C3 (d : Int) (h : 0 ≤ d) :
    ('s' ∈ (format_duration d).data ↔ d < 3600) ∧ format_duration (-1) = "0s" := by
  refine ⟨?_, by decide⟩
  have hneg : ¬ d < 0 := by omega
  rw [format_duration, if_neg hneg, mem_joinSep_space]
  by_cases hlt : d.toNat < 3600
  · have hdd : dDays d.toNat = 0 := by unfold dDays; omega
    have hhh : dHours d.toNat = 0 := by unfold dHours; omega
    have hmem : (Nat.repr (dSecs d.toNat) ++ "s") ∈ duration_parts_full d.toNat := by
      rw [duration_parts_full, if_pos (Or.inr ⟨hdd, hhh⟩)]
      simp
    have hsin : 's' ∈ (Nat.repr (dSecs d.toNat) ++ "s").data := by
      rw [String.data_append]
      exact List.mem_append_right _ (by decide)
    exact iff_of_true ⟨_, hmem, hsin⟩ (by omega)
  · have h1 : 0 < dHours d.toNat ∨ 0 < dDays d.toNat := by unfold dHours dDays; omega
    have h2 : duration_parts d.toNat ≠ [] := by
      simp [duration_parts, if_pos h1]
    have hcond : ¬ (duration_parts d.toNat = [] ∨ (dDays d.toNat = 0 ∧ dHours d.toNat = 0)) := by
      rintro (hnil | ⟨hd0, hh0⟩)
      · exact h2 hnil
      · unfold dDays at hd0
        unfold dHours at hh0
        omega
    have hnos : ∀ p ∈ duration_parts_full d.toNat, 's' ∉ p.data := by
      rw [duration_parts_full, if_neg hcond]
      intro p hp
      rw [duration_parts] at hp
      simp only [List.mem_append, List.mem_ite_nil_right, List.mem_singleton] at hp
      rcases hp with (⟨_, rfl⟩ | ⟨_, rfl⟩) | ⟨_, rfl⟩
      · exact no_s_in_part _ "d" (by decide)
      · exact no_s_in_part _ "h" (by decide)
      · exact no_s_in_part _ "m" (by decide)
    exact iff_of_false (fun ⟨p, hp, hs⟩ => hnos p hp hs) (by omega)

/-- C3 witness: the amended theorem applied at d = 45. -/
theorem claim_C3_witness :
    ('s' ∈ (format_duration 45).data ↔ (45 : Int) < 3600) ∧ format_duration (-1) = "0s" :=
  claim_C3 45 (by decide)

/-! ## Claim C6: is_business_hours -/

/-- C6: is_business_hours converts the instant to IST (UTC+5:30) and
returns true iff the local weekday is Monday-Friday (Python weekday 0-4)
and the local hour is in [9, 18).  In particular it is false on every
Saturday (weekday 5) and Sunday (weekday 6) instant, true at Tuesday
10:00 IST (epoch second 448200) and Tuesday 17:59 IST (476940), false at
Tuesday 08:59 IST (444540), and false on the internal-error path. -/
theorem claim_C6 :
    (∀ t : Nat, (localOfUtc t).weekday = 5 ∨ (localOfUtc t).weekday = 6 →
      is_business_hours (some (localOfUtc t)) = false)
    ∧ (∀ t : Nat, is_business_hours (some (localOfUtc t)) = true ↔
        ((localOfUtc t).weekday < 5 ∧ 9 ≤ (localOfUtc t).hour ∧ (localOfUtc t).hour < 18))
    ∧ is_business_hours (some (localOfUtc 448200)) = true
    ∧ is_business_hours (some (localOfUtc 476940)) = true
    ∧ is_business_hours (some (localOfUtc 444540)) = false
    ∧ is_business_hours none = false := by
  have hmem : ∀ lt : LocalTime, is_business_hours (some lt) = true ↔
      (lt.weekday < 5 ∧ 9 ≤ lt.hour ∧ lt.hour < 18) := by
    intro lt
    simp only [is_business_hours, BUSINESS_DAYS, BUSINESS_HOURS_START, BUSINESS_HOURS_END,
      Bool.and_eq_true, decide_eq_true_eq, List.contains, List.elem_eq_mem, List.mem_cons,
      List.mem_singleton, List.not_mem_nil]
    constructor
    · rintro ⟨hw, h1, h2⟩
      refine ⟨by simp at hw; omega, h1, h2⟩
    · rintro ⟨hw, h1, h2⟩
      refine ⟨by simp; omega, h1, h2⟩
  refine ⟨?_, fun t => hmem _, by decide, by decide, by decide, rfl⟩
  intro t h
  rw [← Bool.not_eq_true]
  intro hb
  rcases (hmem _).mp hb with ⟨hw, _⟩
  rcases h with h | h <;> omega

/-- C6 witness: epoch second 153000 is a Saturday in IST (weekday 5), and
the classifier rejects it. -/
theorem claim_C6_witness : is_business_hours (some (localOfUtc 153000)) = false :=
  claim_C6.1 153000 (Or.inl (by decide))

/-! ## Claim C4: send_to_webhook retry behaviour -/

theorem send_loop_attempts_le : ∀ (l : List AttemptOutcome) (a : Nat),
    (send_loop l a).attempts ≤ l.length
  | [], _ => by simp [send_loop]
  | o :: rest, a => by
    have ih := send_loop_attempts_le rest (a + 1)
    simp only [send_loop, List.length_cons]
    split
    · simp
    · split
      · simp
      · simpa using Nat.succ_le_succ ih

/-- C4: send_to_webhook makes at most MAX_RETRIES = 3 attempts, returns
true iff some attempt yields HTTP 200 (and only status 200 counts as
success), returns false after exactly 3 attempts with backoff sleeps of
1s and 2s when all three attempts fail (no sleep after the last), and
returns true as soon as an attempt succeeds (1 attempt with no sleep,
2 attempts with a 1s sleep, or 3 attempts with 1s and 2s sleeps). -/
theorem claim_C4 (o0 o1 o2 : AttemptOutcome) :
    (∀ outcomes : List AttemptOutcome, (send_to_webhook outcomes).attempts ≤ MAX_RETRIES)
    ∧ ((send_to_webhook [o0, o1, o2]).success = true ↔
        (attempt_ok o0 = true ∨ attempt_ok o1 = true ∨ attempt_ok o2 = true))
    ∧ (∀ code : Nat, attempt_ok (AttemptOutcome.status code) = true ↔ code = 200)
    ∧ (attempt_ok o0 = false → attempt_ok o1 = false → attempt_ok o2 = false →
        send_to_webhook [o0, o1, o2] = ⟨3, false, [1, 2]⟩)
    ∧ (attempt_ok o0 = true → send_to_webhook [o0, o1, o2] = ⟨1, true, []⟩)
    ∧ (attempt_ok o0 = false → attempt_ok o1 = true →
        send_to_webhook [o0, o1, o2] = ⟨2, true, [1]⟩)
    ∧ (attempt_ok o0 = false → attempt_ok o1 = false → attempt_ok o2 = true →
        send_to_webhook [o0, o1, o2] = ⟨3, true, [1, 2]⟩) := by
  refine ⟨?_, ?_, ?_, ?_, ?_, ?_, ?_⟩
  · intro outcomes
    calc (send_to_webhook outcomes).attempts
        ≤ (outcomes.take MAX_RETRIES).length := send_loop_attempts_le _ 0
      _ ≤ MAX_RETRIES := List.length_take_le _ _
  · cases hb0 : attempt_ok o0 <;> cases hb1 : attempt_ok o1 <;> cases hb2 : attempt_ok o2 <;>
      simp [send_to_webhook, MAX_RETRIES, send_loop, hb0, hb1, hb2]
  · intro code
    simp [attempt_ok]
  all_goals
    cases hb0 : attempt_ok o0 <;> cases hb1 : attempt_ok o1 <;> cases hb2 : attempt_ok o2 <;>
      simp [send_to_webhook, MAX_RETRIES, send_loop, hb0, hb1, hb2]

/-- C4 witness: three non-200 outcomes (a 500, a timeout, a 404) give
exactly 3 attempts, failure, and sleeps [1, 2]. -/
theorem claim_C4_witness :
    send_to_webhook [.status 500, .timeoutErr, .status 404] = ⟨3, false, [1, 2]⟩ :=
  (claim_C4 (.status 500) .timeoutErr (.status 404)).2.2.2.1 (by decide) (by decide) (by decide)

/-! ## Claims C7 and C8: engineering classification -/

/-- Soundness of the Boolean substring scan with respect to list infixes. -/
theorem listIsSub_iff (needle : List Char) : ∀ hay, listIsSub needle hay = true ↔ needle <:+: hay
  | [] => by simp [listIsSub, List.infix_nil, List.isEmpty_iff]
  | c :: t => by
    have ih := listIsSub_iff needle t
    rw [List.infix_cons_iff]
    simp [listIsSub, ih]

/-- C7: the classification of an opening message is a pure string
containment test: the result is false (non-engineering) iff some
configured consulting identity occurs as a substring of the content, and
empty content yields true (engineering). -/
theorem claim_C7 (content : List Char) :
    (is_engineering_issue content = false ↔
      ∃ uid ∈ CONSULTING_USER_IDS, uid.data <:+: content)
    ∧ is_engineering_issue [] = true := by
  refine ⟨?_, rfl⟩
  by_cases hc : content = []
  · subst hc
    constructor
    · intro h
      exact absurd h (by decide)
    · rintro ⟨uid, hmem, hinf⟩
      rw [List.infix_nil] at hinf
      fin_cases hmem <;> simp_all
  · simp [is_engineering_issue, hc, List.any_eq_true, listIsSub_iff]

/-- C7 witness: the theorem applied to a message mentioning a consulting
identity. -/
theorem claim_C7_witness :
    (is_engineering_issue ("ping <@365127154847186945> please".data) = false ↔
      ∃ uid ∈ CONSULTING_USER_IDS, uid.data <:+: ("ping <@365127154847186945> please".data))
    ∧ is_engineering_issue [] = true :=
  claim_C7 _

/-- C8 counterexample: on a first message containing the consulting
identity 441276013578813441 (present in the live bot's list but absent
from the migration script's two-entry list) the live classifier returns
false while the migration script returns true — the two classifiers are
not equal over the same configured list. -/
theorem claim_C8_cex :
    is_engineering_issue ("441276013578813441".data) = false ∧
    migrate_is_engineering ("441276013578813441".data) = true := by decide

/-- C8 (amended): the migration script replays the identity-containment
rule over only the first two consulting identities (Siddhant,
Prateeksha), not the live bot's four-entry list; on every first-message
content that contains neither of the live list's two extra identities,
its value equals the live classifier's value. -/
theorem claim_C8 (content : List Char)
    (h1 : listIsSub ("441276013578813441").data content = false)
    (h2 : listIsSub ("1394202624999559230").data content = false) :
    migrate_is_engineering content = is_engineering_issue content := by
  rcases content with _ | ⟨c, cs⟩
  · decide
  · have hne : (c :: cs : List Char) ≠ [] := by simp
    simp only [is_engineering_issue, migrate_is_engineering, engineering_user_ids,
      CONSULTING_USER_IDS, if_neg hne]
    cases hA : listIsSub ("365127154847186945").data (c :: cs) <;>
    cases hB : listIsSub ("535859343665397791").data (c :: cs) <;>
      simp [List.filter, hA, hB, h1, h2]

/-- C8 witness: both classifiers return false on a message mentioning
Siddhant's identity. -/
theorem claim_C8_witness :
    migrate_is_engineering ("<@365127154847186945>".data) =
      is_engineering_issue ("<@365127154847186945>".data) :=
  claim_C8 _ (by decide) (by decide)

/-! ## Claim C9: startup configuration validation -/

/-- C9 counterexample: with a token, a channel id, a webhook value that is
not a valid HTTP(S) URL (only the literal prefix "http" is ever checked),
and a missing alert-channel list, startup proceeds instead of exiting:
neither the URL's validity beyond its first four characters nor the
alert-destination list is validated. -/
theorem claim_C9_cex :
    startup ⟨"t", "123", "httpnonsense", ""⟩ =
      StartupResult.running "t" 123 "httpnonsense" [] := by decide

/-- C9 (amended): a missing token, a missing webhook URL, a missing or
unparsable monitored-channel id (which parses to the invalid value 0),
and a webhook URL that does not start with "http" are each fatal (exit
code 1 before any event processing); the alert-destination channel list
is NOT validated — when those checks pass, startup proceeds for every
value of ALERT_CHANNEL_IDS, with a missing list yielding [] and invalid
entries silently skipped. -/
theorem claim_C9 (e : Env) :
    (e.discord_token.data = [] → startup e = .exited 1)
    ∧ (e.discord_token.data ≠ [] → e.webhook_url.data = [] → startup e = .exited 1)
    ∧ (e.discord_token.data ≠ [] → e.webhook_url.data ≠ [] →
        parse_int_env e.support_channel_id 0 = 0 → startup e = .exited 1)
    ∧ (e.discord_token.data ≠ [] → e.webhook_url.data ≠ [] →
        parse_int_env e.support_channel_id 0 ≠ 0 →
        "http".data.isPrefixOf e.webhook_url.data = false → startup e = .exited 1)
    ∧ (e.discord_token.data ≠ [] → e.webhook_url.data ≠ [] →
        parse_int_env e.support_channel_id 0 ≠ 0 →
        "http".data.isPrefixOf e.webhook_url.data = true →
        startup e = .running e.discord_token (parse_int_env e.support_channel_id 0)
          e.webhook_url (parse_int_list_env e.alert_channel_ids)) := by
  refine ⟨?_, ?_, ?_, ?_, ?_⟩
  · intro htok
    simp [startup, get_env_var, htok]
  · intro htok hurl
    simp [startup, get_env_var, htok, hurl]
  · intro htok hurl hscid
    simp [startup, get_env_var, htok, hurl, hscid]
  · intro htok hurl hscid hpre
    simp [startup, get_env_var, htok, hurl, hscid, hpre]
  · intro htok hurl hscid hpre
    simp [startup, get_env_var, htok, hurl, hscid, hpre]

/-- C9 witness: a fully valid token/channel/URL with an alert list whose
first entry is unparsable starts the bot with the invalid entry skipped. -/
theorem claim_C9_witness :
    startup ⟨"t", "123", "http://example", "abc,12"⟩ =
      StartupResult.running "t" 123 "http://example" [12] := by
  have h := (claim_C9 ⟨"t", "123", "http://example", "abc,12"⟩).2.2.2.2
    (by decide) (by decide) (by decide) (by decide)
  exact h.trans (by decide)

/-! ## Claim C2: at most one pending alert per ticket -/

theorem countP_key_le_one (l : List (Nat × AlertPayload)) (k : Nat)
    (hnd : (l.map Prod.fst).Nodup) : l.countP (fun e => e.1 == k) ≤ 1 := by
  induction l with
  | nil => simp
  | cons a l ih =>
    rw [List.map_cons, List.nodup_cons] at hnd
    by_cases hk : a.1 = k
    · subst hk
      have hz : l.countP (fun e => e.1 == a.1) = 0 := by
        rw [List.countP_eq_zero]
        intro e he hbe
        exact hnd.1 (by simpa [← (by simpa using hbe : e.1 = a.1)] using List.mem_map_of_mem Prod.fst he)
      rw [List.countP_cons_of_pos _ _ (by simp), hz]
    · rw [List.countP_cons_of_neg _ _ (by simp [hk])]
      exact ih hnd.2

theorem countP_cancel_pending (l : List (Nat × AlertPayload)) (tid : Nat) :
    (cancel_pending l tid).countP (fun e => e.1 == tid) = 0 := by
  rw [List.countP_eq_zero]
  intro e he hbe
  have := List.of_mem_filter he
  simp_all [cancel_pending]

theorem nodup_cancel_pending (l : List (Nat × AlertPayload)) (tid : Nat)
    (hnd : (l.map Prod.fst).Nodup) : ((cancel_pending l tid).map Prod.fst).Nodup :=
  hnd.sublist ((List.filter_sublist l).map Prod.fst)

theorem cancel_sla_alert_pending (st : BotState) (tid : Nat) :
    (cancel_sla_alert st tid).pending_sla_alerts = st.pending_sla_alerts ∨
    (cancel_sla_alert st tid).pending_sla_alerts = cancel_pending st.pending_sla_alerts tid := by
  rw [cancel_sla_alert]
  split
  · exact Or.inr rfl
  · exact Or.inl rfl

/-- C2: when the pending dict has no duplicate keys (as a Python dict
guarantees), every ticket id has at most one pending alert; schedule and
cancel both preserve key uniqueness; after schedule(tid, p) exactly one
entry for tid is pending and it carries the new payload p (idempotent
replace, never additive); and cancel(tid) with no pending alert for tid
is a no-op, not an error. -/
theorem claim_C2 (st : BotState) (tid : Nat) (p : AlertPayload)
    (hnd : (st.pending_sla_alerts.map Prod.fst).Nodup) :
    (∀ k, st.pending_sla_alerts.countP (fun e => e.1 == k) ≤ 1)
    ∧ ((schedule_sla_alert st tid p).pending_sla_alerts.map Prod.fst).Nodup
    ∧ ((cancel_sla_alert st tid).pending_sla_alerts.map Prod.fst).Nodup
    ∧ (schedule_sla_alert st tid p).pending_sla_alerts.countP (fun e => e.1 == tid) = 1
    ∧ lookupAlert (schedule_sla_alert st tid p) tid = some p
    ∧ (lookupAlert st tid = none → cancel_sla_alert st tid = st) := by
  have hcanc_nodup : ((cancel_sla_alert st tid).pending_sla_alerts.map Prod.fst).Nodup := by
    rcases cancel_sla_alert_pending st tid with h | h <;> rw [h]
    · exact hnd
    · exact nodup_cancel_pending _ _ hnd
  have hcanc_zero : (cancel_sla_alert st tid).pending_sla_alerts.countP (fun e => e.1 == tid) = 0 := by
    rw [cancel_sla_alert]
    split
    · exact countP_cancel_pending _ _
    · rw [List.countP_eq_zero]
      intro e he hbe
      next hany =>
        exact hany (List.any_eq_true.mpr ⟨e, he, hbe⟩)
  have hcanc_notmem : tid ∉ (cancel_sla_alert st tid).pending_sla_alerts.map Prod.fst := by
    intro hmem
    rcases List.mem_map.mp hmem with ⟨e, he, hfst⟩
    have : (cancel_sla_alert st tid).pending_sla_alerts.countP (fun x => x.1 == tid) ≠ 0 := by
      have : 0 < (cancel_sla_alert st tid).pending_sla_alerts.countP (fun x => x.1 == tid) :=
        List.countP_pos_iff.mpr ⟨e, he, by simp [hfst]⟩
      omega
    exact this hcanc_zero
  refine ⟨fun k => countP_key_le_one _ k hnd, ?_, hcanc_nodup, ?_, ?_, ?_⟩
  · rw [schedule_sla_alert, List.map_cons, List.nodup_cons]
    exact ⟨hcanc_notmem, hcanc_nodup⟩
  · rw [schedule_sla_alert]
    rw [List.countP_cons_of_pos _ _ (by simp), hcanc_zero]
  · rw [lookupAlert, schedule_sla_alert]
    rw [List.find?_cons_of_pos _ (by simp)]
    rfl
  · intro hnone
    rw [lookupAlert, Option.map_eq_none'] at hnone
    rw [List.find?_eq_none] at hnone
    rw [cancel_sla_alert, if_neg]
    simp only [List.any_eq_true, not_exists]
    intro e
    rintro ⟨he, hbe⟩
    exact hnone e he hbe

/-- C2 witness: scheduling for ticket 1 on a state already holding alerts
for tickets 1 and 2 leaves exactly one entry for ticket 1, carrying the
new payload. -/
theorem claim_C2_witness :
    (schedule_sla_alert ⟨[], [(1, ⟨"a", "u", true, 7⟩), (2, ⟨"b", "v", false, 7⟩)]⟩ 1
        ⟨"c", "w", true, 7⟩).pending_sla_alerts.countP (fun e => e.1 == 1) = 1
    ∧ lookupAlert (schedule_sla_alert ⟨[], [(1, ⟨"a", "u", true, 7⟩), (2, ⟨"b", "v", false, 7⟩)]⟩ 1
        ⟨"c", "w", true, 7⟩) 1 = some ⟨"c", "w", true, 7⟩ := by
  have h := claim_C2 ⟨[], [(1, ⟨"a", "u", true, 7⟩), (2, ⟨"b", "v", false, 7⟩)]⟩ 1
    ⟨"c", "w", true, 7⟩ (by decide)
  exact ⟨h.2.2.2.1, h.2.2.2.2.1⟩

/-! ## Claim C10: bot-authored messages have no effect -/

/-- C10: for every message whose author is a bot account, on_message
returns before touching anything: the responded set is unchanged, the
pending-alert map is unchanged (no SLA alert cancelled), and no webhook
event — in particular no first_response — is emitted. -/
theorem claim_C10 (support_channel_id : Nat) (st : BotState) (m : MessageEvent)
    (hbot : m.author_bot = true) :
    (on_message support_channel_id st m).1.responded_threads = st.responded_threads
    ∧ (on_message support_channel_id st m).1.pending_sla_alerts = st.pending_sla_alerts
    ∧ (on_message support_channel_id st m).2 = [] := by
  rw [on_message, if_pos hbot]
  exact ⟨rfl, rfl, rfl⟩

/-- C10 witness: a bot message in a tracked, not-yet-responded support
thread (id 3) leaves the state with its pending alert for thread 3 and
emits nothing. -/
theorem claim_C10_witness :
    (on_message 7 ⟨[], [(3, ⟨"a", "u", true, 7⟩)]⟩
        ⟨true, 9, some 7, 3, .fetched (some 2)⟩).1.responded_threads = []
    ∧ (on_message 7 ⟨[], [(3, ⟨"a", "u", true, 7⟩)]⟩
        ⟨true, 9, some 7, 3, .fetched (some 2)⟩).1.pending_sla_alerts = [(3, ⟨"a", "u", true, 7⟩)]
    ∧ (on_message 7 ⟨[], [(3, ⟨"a", "u", true, 7⟩)]⟩
        ⟨true, 9, some 7, 3, .fetched (some 2)⟩).2 = [] :=
  claim_C10 7 ⟨[], [(3, ⟨"a", "u", true, 7⟩)]⟩ ⟨true, 9, some 7, 3, .fetched (some 2)⟩ rfl

/-! ## Claim C5: tag-derived resolution and edge-triggered events -/

/-- C5: a thread is resolved iff some applied tag's lowercased name is in
the resolved-tag set; a thread update emits `resolved` iff the before
snapshot was not resolved and the after snapshot is, emits `reopened` iff
the reverse transition happened, and an update with identical before and
after snapshots emits nothing at all. -/
theorem claim_C5 (scid : Nat) (before after : ThreadSnapshot) :
    (is_thread_resolved after.applied_tags = true ↔
      ∃ t ∈ after.applied_tags, pyLower t ∈ RESOLVED_TAGS)
    ∧ (EventKind.resolved ∈ on_thread_update scid before after ↔
        (after.parent_id = some scid ∧ scid ≠ 0 ∧
         is_thread_resolved after.applied_tags = true ∧
         is_thread_resolved before.applied_tags = false))
    ∧ (EventKind.reopened ∈ on_thread_update scid before after ↔
        (after.parent_id = some scid ∧ scid ≠ 0 ∧
         is_thread_resolved before.applied_tags = true ∧
         is_thread_resolved after.applied_tags = false))
    ∧ on_thread_update scid after after = [] := by
  refine ⟨?_, ?_, ?_, ?_⟩
  · by_cases htags : after.applied_tags = []
    · simp [is_thread_resolved, htags]
    · simp [is_thread_resolved, htags, List.any_eq_true, List.contains, List.elem_eq_mem]
  · rcases hpid : after.parent_id with _ | pid
    · simp [on_thread_update, hpid]
    · simp only [on_thread_update, hpid]
      by_cases hguard : pid = 0 ∨ pid ≠ scid
      · rw [if_pos hguard]
        simp only [List.not_mem_nil, false_iff]
        rintro ⟨hsome, hs0, _⟩
        rcases hguard with h0 | hne
        · exact hs0 (by injection hsome with h; omega)
        · exact hne (by injection hsome)
      · rw [if_neg hguard]
        push_neg at hguard
        simp only [List.mem_append, List.mem_ite_nil_right, List.mem_singleton, hpid]
        constructor
        · rintro ((⟨_, h⟩ | ⟨_, h⟩) | h)
          · exact absurd h (by decide)
          · exact absurd h (by decide)
          · split at h
            · next hcond =>
              simp only [Bool.and_eq_true, Bool.not_eq_true'] at hcond
              exact ⟨by rw [hguard.2], by omega, hcond.1, hcond.2⟩
            · split at h
              · simp at h
              · simp at h
        · rintro ⟨hsome, hs0, hnow, hwas⟩
          refine Or.inr ?_
          rw [if_pos (by simp [hnow, hwas])]
          simp
  · rcases hpid : after.parent_id with _ | pid
    · simp [on_thread_update, hpid]
    · simp only [on_thread_update, hpid]
      by_cases hguard : pid = 0 ∨ pid ≠ scid
      · rw [if_pos hguard]
        simp only [List.not_mem_nil, false_iff]
        rintro ⟨hsome, hs0, _⟩
        rcases hguard with h0 | hne
        · exact hs0 (by injection hsome with h; omega)
        · exact hne (by injection hsome)
      · rw [if_neg hguard]
        push_neg at hguard
        simp only [List.mem_append, List.mem_ite_nil_right, List.mem_singleton, hpid]
        constructor
        · rintro ((⟨_, h⟩ | ⟨_, h⟩) | h)
          · exact absurd h (by decide)
          · exact absurd h (by decide)
          · split at h
            · simp at h
            · split at h
              · next hcond =>
                simp only [Bool.and_eq_true, Bool.not_eq_true'] at hcond
                exact ⟨by rw [hguard.2], by omega, hcond.1, hcond.2⟩
              · simp at h
        · rintro ⟨hsome, hs0, hwas, hnow⟩
          refine Or.inr ?_
          rw [if_neg (by simp [hnow, hwas]), if_pos (by simp [hnow, hwas])]
          simp
  · rcases hpid : after.parent_id with _ | pid
    · simp [on_thread_update, hpid]
    · simp only [on_thread_update, hpid]
      by_cases hguard : pid = 0 ∨ pid ≠ scid
      · rw [if_pos hguard]
      · rw [if_neg hguard]
        rw [if_neg (by simp), if_neg (by simp)]
        rw [if_neg (by simp), if_neg (by simp)]
        rfl

/-- C5 witness: tagging a previously untagged support thread (parent 7)
with "Resolved" emits the resolved event once; repeating the identical
update emits nothing. -/
theorem claim_C5_witness :
    EventKind.resolved ∈ on_thread_update 7 ⟨some 7, 1, "t", []⟩ ⟨some 7, 1, "t", ["Resolved"]⟩
    ∧ on_thread_update 7 ⟨some 7, 1, "t", ["Resolved"]⟩ ⟨some 7, 1, "t", ["Resolved"]⟩ = [] := by
  refine ⟨?_, (claim_C5 7 ⟨some 7, 1, "t", ["Resolved"]⟩ ⟨some 7, 1, "t", ["Resolved"]⟩).2.2.2⟩
  exact (claim_C5 7 ⟨some 7, 1, "t", []⟩ ⟨some 7, 1, "t", ["Resolved"]⟩).2.1.mpr
    ⟨rfl, by decide, by decide, by decide⟩

/-! ## Claim C1: responded-before-fire suppresses the SLA alert -/

theorem sysStep_mark_mem (tid : Nat) (st : SysState) :
    tid ∈ (sysStep tid st .markResponded).responded := by
  rw [sysStep]
  by_cases hc : tid ∈ st.responded
  · rw [if_pos hc]
    exact hc
  · rw [if_neg hc]
    exact List.mem_cons_self _ _

theorem sysStep_dispatched_nonfire (tid : Nat) (st : SysState) :
    ∀ l, l ≠ ProcLabel.timerFire → (sysStep tid st l).dispatched = st.dispatched
  | .markResponded, _ => by
    rw [sysStep]
    by_cases hc : tid ∈ st.responded
    · rw [if_pos hc]
    · rw [if_neg hc]
  | .cancelAlert, _ => by
    rw [sysStep]
    by_cases hc : st.pending.any (fun e => e.1 == tid) = true
    · rw [if_pos hc]
    · rw [if_neg hc]
  | .timerFire, h => absurd rfl h

theorem sysStep_responded_mono (tid : Nat) (st : SysState) :
    ∀ l, tid ∈ st.responded → tid ∈ (sysStep tid st l).responded
  | .markResponded, h => by
    rw [sysStep, if_pos h]
    exact h
  | .cancelAlert, h => by
    rw [sysStep]
    by_cases hc : st.pending.any (fun e => e.1 == tid) = true
    · rw [if_pos hc]
      exact h
    · rw [if_neg hc]
      exact h
  | .timerFire, h => by
    rw [sysStep, alert_task_fire]
    show tid ∈ (if tid ∈ st.responded then st else send_sla_alert_step tid st).responded
    rw [if_pos h]
    exact h

theorem sysStep_no_new_dispatch (tid : Nat) (st : SysState) (hr : tid ∈ st.responded)
    (hd : tid ∉ st.dispatched) : ∀ l, tid ∉ (sysStep tid st l).dispatched
  | .markResponded => by
    rw [sysStep, if_pos hr]
    exact hd
  | .cancelAlert => by
    rw [sysStep]
    by_cases hc : st.pending.any (fun e => e.1 == tid) = true
    · rw [if_pos hc]
      exact hd
    · rw [if_neg hc]
      exact hd
  | .timerFire => by
    rw [sysStep, alert_task_fire]
    show tid ∉ (if tid ∈ st.responded then st else send_sla_alert_step tid st).dispatched
    rw [if_pos hr]
    exact hd

theorem run_safe (tid : Nat) : ∀ (b : List ProcLabel) (st : SysState),
    tid ∈ st.responded → tid ∉ st.dispatched →
    tid ∈ (b.foldl (sysStep tid) st).responded ∧ tid ∉ (b.foldl (sysStep tid) st).dispatched
  | [], _, hr, hd => ⟨hr, hd⟩
  | l :: b, st, hr, hd => by
    rw [List.foldl_cons]
    exact run_safe tid b _ (sysStep_responded_mono tid st l hr)
      (sysStep_no_new_dispatch tid st hr hd l)

theorem run_nofire (tid : Nat) : ∀ (a : List ProcLabel) (st : SysState),
    ProcLabel.timerFire ∉ a → tid ∉ st.dispatched →
    tid ∉ (a.foldl (sysStep tid) st).dispatched
  | [], _, _, hd => hd
  | l :: a, st, hfire, hd => by
    rw [List.foldl_cons]
    refine run_nofire tid a _ (fun hm => hfire (List.mem_cons_of_mem _ hm)) ?_
    rw [sysStep_dispatched_nonfire tid st l (fun he => hfire (he ▸ List.mem_cons_self _ _))]
    exact hd

/-- C1: in every interleaving of the response handler's steps
(mark-responded, cancel) with the SLA timer's fire step on the same
ticket in which the responded marker is set before the fire step runs —
the trace is any fire-free prefix, then markResponded, then anything,
including a fire racing with the cancellation — no alert dispatch is ever
performed for that ticket: the fire path's re-check of the responded
marker suppresses the send. -/
theorem claim_C1 (tid : Nat) (st0 : SysState) (a b : List ProcLabel)
    (hfire : ProcLabel.timerFire ∉ a) (h0 : tid ∉ st0.dispatched) :
    tid ∉ ((a ++ ProcLabel.markResponded :: b).foldl (sysStep tid) st0).dispatched := by
  rw [List.foldl_append, List.foldl_cons]
  have h1 : tid ∉ (a.foldl (sysStep tid) st0).dispatched := run_nofire tid a st0 hfire h0
  have h1d : tid ∉ (sysStep tid (a.foldl (sysStep tid) st0) .markResponded).dispatched := by
    rw [sysStep_dispatched_nonfire tid _ .markResponded (by intro hcon; cases hcon)]
    exact h1
  exact (run_safe tid b _ (sysStep_mark_mem tid _) h1d).2

/-- C1 witness: ticket 1 is marked responded, then the timer fires before
the cancel step runs (the wake-up racing ahead of cancellation); the
alert is still suppressed. -/
theorem claim_C1_witness :
    1 ∉ ((([] : List ProcLabel) ++ ProcLabel.markResponded ::
        [ProcLabel.timerFire, ProcLabel.cancelAlert]).foldl (sysStep 1)
        ⟨[], [(1, ⟨"a", "u", true, 7⟩)], []⟩).dispatched :=
  claim_C1 1 ⟨[], [(1, ⟨"a", "u", true, 7⟩)], []⟩ []
    [ProcLabel.timerFire, ProcLabel.cancelAlert] (by decide) (by decide)

end DiscordSupport
